import Mathlib

/-!
Verification of the staged test-case generation core of the TestGen repository
(src/backend/testcasegen.py, plus the selection endpoint of src/backend/main.py).

Modelling conventions:
* JSON values produced by json.loads are modelled by JValue (a mutual inductive,
  so that equality and rendering are structurally recursive and computable).
* json.loads itself is Python stdlib, not repository code; it is modelled by its
  result: an Option JValue (none = the parse raised), or, where one code path
  parses two different strings, by an abstract parse function String -> Option JValue.
* The LLM (ChatOpenAI) is an external collaborator; each embedded operation takes
  the relevant response text (or its parse result) as an explicit argument.
  "No LLM call is made" is expressed as independence of the result from that argument.
* Python str.strip / str.split / startswith / endswith / substring membership are
  modelled by the py_ functions below, written over List Char so that they compute.
* The session state dict (TestCaseState) is modelled as the SessionState record;
  dictionaries with string keys and string values are association lists.
* Python comparison tc.get(key) == other.get(key) on possibly-missing keys is
  modelled by opt_eq on Option JValue (None == None is true in Python).
-/

/-! ## JSON values -/

mutual
inductive JValue where
  | jnull
  | jbool (b : Bool)
  | jnum (n : Int)
  | jstr (s : String)
  | jarr (elems : JArr)
  | jobj (fields : JObj)
inductive JArr where
  | nil
  | cons (hd : JValue) (tl : JArr)
inductive JObj where
  | nil
  | cons (key : String) (val : JValue) (tl : JObj)
end

mutual
def JValue.beq : JValue → JValue → Bool
  | .jnull, .jnull => true
  | .jbool a, .jbool b => a == b
  | .jnum a, .jnum b => a == b
  | .jstr a, .jstr b => a == b
  | .jarr a, .jarr b => JArr.beq a b
  | .jobj a, .jobj b => JObj.beq a b
  | _, _ => false
def JArr.beq : JArr → JArr → Bool
  | .nil, .nil => true
  | .cons x xs, .cons y ys => JValue.beq x y && JArr.beq xs ys
  | _, _ => false
def JObj.beq : JObj → JObj → Bool
  | .nil, .nil => true
  | .cons k v t, .cons k2 v2 t2 => k == k2 && JValue.beq v v2 && JObj.beq t t2
  | _, _ => false
end

def JObj.lookup (key : String) : JObj → Option JValue
  | .nil => none
  | .cons k v t => if k == key then some v else JObj.lookup key t

def JObj.hasKey (key : String) : JObj → Bool
  | .nil => false
  | .cons k _ t => k == key || JObj.hasKey key t

def JObj.isEmpty : JObj → Bool
  | .nil => true
  | .cons _ _ _ => false

/-- Append one key/value pair at the end (Python dict assignment of a fresh key). -/
def JObj.push (key : String) (v : JValue) : JObj → JObj
  | .nil => .cons key v .nil
  | .cons k w t => .cons k w (JObj.push key v t)

def JObj.toList : JObj → List (String × JValue)
  | .nil => []
  | .cons k v t => (k, v) :: JObj.toList t

def JObj.ofList : List (String × JValue) → JObj
  | [] => .nil
  | (k, v) :: t => .cons k v (JObj.ofList t)

def JArr.toList : JArr → List JValue
  | .nil => []
  | .cons x t => x :: JArr.toList t

def JArr.ofList : List JValue → JArr
  | [] => .nil
  | x :: t => .cons x (JArr.ofList t)

/-- Notation helper: build a JSON object from a list of fields. -/
def jobjL (fields : List (String × JValue)) : JValue := .jobj (JObj.ofList fields)

/-- Notation helper: build a JSON array from a list of values. -/
def jarrL (elems : List JValue) : JValue := .jarr (JArr.ofList elems)

/-- d.get(key) for a JSON value that may not be an object (Python would raise
AttributeError on a non-dict; such malformed case records are outside every
claim and are modelled as having no keys). -/
def jget (v : JValue) (key : String) : Option JValue :=
  match v with
  | .jobj fs => JObj.lookup key fs
  | _ => none

/-- d.get(key, default). -/
def jgetD (v : JValue) (key : String) (d : JValue) : JValue := (jget v key).getD d

/-- Python == applied to two .get results (None == None is True). -/
def opt_eq (a b : Option JValue) : Bool :=
  match a, b with
  | none, none => true
  | some x, some y => JValue.beq x y
  | _, _ => false

/-! ## Python string-method model (str.strip, str.split, in, startswith, endswith) -/

def charWs (c : Char) : Bool := c == ' ' || c == '\t' || c == '\n' || c == '\r'

def py_strip_chars (l : List Char) : List Char :=
  ((l.dropWhile charWs).reverse.dropWhile charWs).reverse

def py_strip (s : String) : String := ⟨py_strip_chars s.data⟩

def py_split_char (sep : Char) (l : List Char) : List (List Char) :=
  match l with
  | [] => [[]]
  | c :: rest =>
    let r := py_split_char sep rest
    if c == sep then [] :: r
    else match r with
      | [] => [[c]]
      | h :: t => (c :: h) :: t

def starts_with_list (pat l : List Char) : Bool :=
  match pat, l with
  | [], _ => true
  | _ :: _, [] => false
  | p :: ps, c :: cs => p == c && starts_with_list ps cs

/-- Python substring membership: pat in s. -/
def contains_sub (pat : List Char) : List Char → Bool
  | [] => starts_with_list pat []
  | l@(_ :: t) => starts_with_list pat l || contains_sub pat t

def starts_with_lb (l : List Char) : Bool :=
  match l with
  | [] => false
  | c :: _ => c == '['

def ends_with_rb (l : List Char) : Bool :=
  match l.getLast? with
  | some c => c == ']'
  | none => false

-- Python str() of a JSON value (repr for nested values); used only for the
-- duck-typed question-text extraction and f-string interpolation.
mutual
def JValue.py_repr : JValue → String
  | .jnull => "None"
  | .jbool true => "True"
  | .jbool false => "False"
  | .jnum n => toString n
  | .jstr s => "\x27" ++ s ++ "\x27"
  | .jarr a => "[" ++ JArr.py_repr_items a ++ "]"
  | .jobj f => "\x7b" ++ JObj.py_repr_items f ++ "\x7d"
def JArr.py_repr_items : JArr → String
  | .nil => ""
  | .cons x .nil => JValue.py_repr x
  | .cons x tl => JValue.py_repr x ++ ", " ++ JArr.py_repr_items tl
def JObj.py_repr_items : JObj → String
  | .nil => ""
  | .cons k v .nil => "\x27" ++ k ++ "\x27: " ++ JValue.py_repr v
  | .cons k v tl => "\x27" ++ k ++ "\x27: " ++ JValue.py_repr v ++ ", " ++ JObj.py_repr_items tl
end

def JValue.py_str : JValue → String
  | .jstr s => s
  | v => v.py_repr

/-! ## Data model: TestCaseState (testcasegen.py lines 25-58) -/

/-- One entry of answered_history: a question/answer dict with the four fixed
string fields built in update_global_summary. -/
structure QAPair where
  question : String
  answer : String
  level : String
  context : String
deriving DecidableEq, Repr

inductive StageLevel where
  | l1
  | l2
  | l3
  | complete
deriving DecidableEq, Repr

structure L3Node where
  id : JValue
  title : JValue
  description : JValue
  test_steps : JValue
  expected_result : JValue

structure L2Node where
  id : JValue
  title : JValue
  description : JValue
  l3_cases : List L3Node

structure L1Node where
  id : JValue
  title : JValue
  description : JValue
  l2_cases : List L2Node

structure TreeData where
  l1_cases : List L1Node
  session_id : String
  user_prompt : String

/-- The session state record (TestCaseState).  full_tree_data = none models the
initial empty dict. -/
structure SessionState where
  user_initial_prompt : String
  l1_clarification_questions : List JValue
  l1_clarification_answers : List (String × String)
  l1_test_cases : List JValue
  selected_l1_case : Option JValue
  selected_l1_index : Option Int
  l2_clarification_questions : List JValue
  l2_clarification_answers : List (String × String)
  l2_test_cases : List JValue
  selected_l2_case : Option JValue
  selected_l2_index : Option Int
  l3_clarification_questions : List JValue
  l3_clarification_answers : List (String × String)
  l3_test_cases : List JValue
  answered_history : List QAPair
  global_summary : String
  full_tree_data : Option TreeData
  current_level : StageLevel
  session_id : String

/-- Lookup in a string-keyed Python dict (answers mapping). -/
def dict_lookup (d : List (String × String)) (key : String) : Option String :=
  (d.find? (fun kv => kv.1 == key)).map (fun kv => kv.2)

/-! ## update_global_summary (testcasegen.py lines 322-423) -/

/-- question_text = q.get('question', str(q)) if isinstance(q, dict) else str(q),
restricted to the shapes that can match a string-keyed answers dict.  A dict whose
'question' value is not a string is used raw as a lookup key in Python and can
never equal a string key, hence none here. -/
def question_key (q : JValue) : Option String :=
  match q with
  | .jobj fs =>
    match JObj.lookup "question" fs with
    | some (.jstr s) => some s
    | some _ => none
    | none => some (JValue.py_str (.jobj fs))
  | v => some (JValue.py_str v)

/-- The qa_pair that one question q contributes, if its answer is present and
non-whitespace (lines 336-347 and the analogous L2/L3 loops). -/
def candidate_qa (answers : List (String × String)) (level context : String)
    (q : JValue) : Option QAPair :=
  match question_key q with
  | none => none
  | some qt =>
    match dict_lookup answers qt with
    | none => none
    | some a => if py_strip a = "" then none else some ⟨qt, a, level, context⟩

/-- One level of the history scan: walk the question list in order, appending
each candidate qa_pair that is not already present. -/
def scan_level (answers : List (String × String)) (level context : String) :
    List JValue → List QAPair → List QAPair
  | [], h => h
  | q :: qs, h =>
    match candidate_qa answers level context q with
    | none => scan_level answers level context qs h
    | some p => scan_level answers level context qs (if p ∈ h then h else h ++ [p])

/-- l1_context for L2 entries (line 353); selected_l1 or \x7b\x7d is falsy when the
selection is absent or an empty dict. -/
def l2_history_context (sel : Option JValue) : String :=
  match sel with
  | some (.jobj fs) =>
    if fs.isEmpty then "L1: N/A"
    else "L1: " ++ JValue.py_str ((JObj.lookup "title" fs).getD (.jstr "N/A"))
  | _ => "L1: N/A"

/-- l2_context for L3 entries (line 371). -/
def l3_history_context (sel : Option JValue) : String :=
  match sel with
  | some (.jobj fs) =>
    if fs.isEmpty then "L2: N/A"
    else "L2: " ++ JValue.py_str ((JObj.lookup "title" fs).getD (.jstr "N/A"))
  | _ => "L2: N/A"

/-- The three scans of update_global_summary, in source order L1, L2, L3. -/
def scan_all (st : SessionState) : List QAPair :=
  scan_level st.l3_clarification_answers "L3" (l3_history_context st.selected_l2_case)
    st.l3_clarification_questions
    (scan_level st.l2_clarification_answers "L2" (l2_history_context st.selected_l1_case)
      st.l2_clarification_questions
      (scan_level st.l1_clarification_answers "L1" "Initial business clarification"
        st.l1_clarification_questions st.answered_history))

/-- update_global_summary.  llm_response is the text the summarisation LLM call
would return; it is only consumed on the non-empty-history branch. -/
def update_global_summary (st : SessionState) (llm_response : String) : SessionState :=
  let h := scan_all st
  if h.isEmpty then
    { st with answered_history := h, global_summary := "" }
  else
    { st with answered_history := h, global_summary := py_strip llm_response }

/-! ## Question parsing (ask_l1_questions lines 185-247, streaming lines 1474-1498) -/

def mkQuestion (q : String) (ans : List String) : JValue :=
  jobjL [("question", .jstr q), ("suggested_answers", jarrL (ans.map .jstr))]

/-- Normalisation of one parsed item (dict with a question key, or bare string;
anything else is silently dropped). -/
def norm_question_item (item : JValue) : Option JValue :=
  match item with
  | .jobj fs =>
    if fs.hasKey "question" then
      some (jobjL [("question", (JObj.lookup "question" fs).getD .jnull),
                   ("suggested_answers", (JObj.lookup "suggested_answers" fs).getD (jarrL []))])
    else none
  | .jstr s => some (jobjL [("question", .jstr s), ("suggested_answers", jarrL [])])
  | _ => none

/-- if not isinstance(x, list): x = [x]. -/
def wrap_if_not_list (v : JValue) : List JValue :=
  match v with
  | .jarr xs => xs.toList
  | w => [w]

def normalize_questions (v : JValue) : List JValue :=
  (wrap_if_not_list v).filterMap norm_question_item

/-- Final fallback of ask_l1_questions (3 fixed questions, lines 231-242). -/
def l1_questions_fallback : List JValue :=
  [mkQuestion "What are the main software systems you use?"
      ["ERP System", "CRM Platform", "Custom Web Application"],
   mkQuestion "What are your critical business workflows?"
      ["Order Processing", "Customer Onboarding", "Payment Processing"],
   mkQuestion "What are the key integration points between systems?"
      ["API Integration", "Database Sync", "File Transfer"]]

/-- Fallback of stream_ask_l1_questions (only 2 questions, lines 1493-1496). -/
def stream_l1_questions_fallback : List JValue :=
  [mkQuestion "What are the main software systems you use?"
      ["ERP System", "CRM Platform", "Custom Web Application"],
   mkQuestion "What are your critical business workflows?"
      ["Order Processing", "Customer Onboarding", "Payment Processing"]]

/-- The bracket-retry branch (lines 211-224) iterates the re-parsed value without
the list-wrap step: a dict iterates its keys, a string its characters, and a
non-iterable raises into the final fallback. -/
def iterate_no_wrap (v : JValue) : List JValue :=
  match v with
  | .jarr xs => xs.toList.filterMap norm_question_item
  | .jobj fs => (fs.toList.map (fun kv => JValue.jstr kv.1)).filterMap norm_question_item
  | .jstr s => (s.data.map (fun ch => JValue.jstr ⟨[ch]⟩)).filterMap norm_question_item
  | _ => l1_questions_fallback

/-- The parsed questions that the non-streaming ask_l1_questions produces from a
response text (lines 187-242), with json.loads abstracted as parse. -/
def ask_l1_questions_result (parse : String → Option JValue) (content : String) :
    List JValue :=
  match parse content with
  | some v => normalize_questions v
  | none =>
    let c := py_strip content
    if starts_with_lb c.data && ends_with_rb c.data then
      match parse c with
      | some v => iterate_no_wrap v
      | none => l1_questions_fallback
    else
      let qlines := (py_split_char '\n' c.data).filterMap (fun l =>
        if (py_strip_chars l).isEmpty || !(l.contains '?') then none
        else some (⟨py_strip_chars l⟩ : String))
      if qlines.isEmpty then l1_questions_fallback
      else qlines.map (fun q => jobjL [("question", .jstr q), ("suggested_answers", jarrL [])])

/-- The parsed questions yielded at completion of stream_ask_l1_questions
(lines 1475-1496). -/
def stream_ask_l1_questions_result (parse : String → Option JValue) (full_text : String) :
    List JValue :=
  match parse full_text with
  | some v => normalize_questions v
  | none => stream_l1_questions_fallback

/-- Fallback of ask_l2_questions (3 questions, lines 514-518). -/
def l2_questions_fallback (sel : JValue) : List JValue :=
  [mkQuestion ("What are the specific scenarios for "
        ++ JValue.py_str (jgetD sel "title" (.jstr "this functionality")) ++ "?")
      ["Happy Path", "Error Handling", "Edge Cases"],
   mkQuestion "What are the edge cases to consider?"
      ["Invalid Input", "Boundary Conditions", "Concurrent Access"],
   mkQuestion "What are the integration points?"
      ["API Calls", "Database Access", "External Services"]]

/-- Fallback of stream_ask_l2_questions (1 question, lines 1641-1643). -/
def stream_l2_questions_fallback (sel : JValue) : List JValue :=
  [mkQuestion ("What are the specific scenarios for "
        ++ JValue.py_str (jgetD sel "title" (.jstr "this functionality")) ++ "?")
      ["Happy Path", "Error Handling", "Edge Cases"]]

/-! ## Case parsing with fallbacks (generate_l1/l2/l3_cases) -/

/-- L1 parse-failure fallback (lines 308-312): 2 cases. -/
def l1_cases_fallback : List JValue :=
  [jobjL [("id", .jstr "L1_001"), ("title", .jstr "Core Functionality Test"),
          ("description", .jstr "Test core business functionality")],
   jobjL [("id", .jstr "L1_002"), ("title", .jstr "Integration Test"),
          ("description", .jstr "Test system integrations")]]

/-- generate_l1_cases parse step (lines 303-312): no per-item normalisation. -/
def l1_cases_from_parse (parsed : Option JValue) : List JValue :=
  match parsed with
  | none => l1_cases_fallback
  | some v => wrap_if_not_list v

/-- tc['parent_l1_id'] = pid when the key is missing.  Mirrors Python exactly:
on a dict, key-presence check then assignment; 'key not in tc' on a string is a
substring test (no write if the key text occurs), on a list an element test; any
assignment to a non-dict, and membership on a non-iterable, raise into the
fallback (none). -/
def try_set_parent (key : String) (pid : JValue) (tc : JValue) : Option JValue :=
  match tc with
  | .jobj fs => if fs.hasKey key then some (.jobj fs) else some (.jobj (fs.push key pid))
  | .jstr s => if contains_sub key.data s.data then some (.jstr s) else none
  | .jarr xs => if xs.toList.any (fun v => v.beq (.jstr key)) then some (.jarr xs) else none
  | _ => none

/-- L2 parse-failure fallback (lines 614-617): 2 cases carrying the parent id. -/
def l2_cases_fallback (pid : JValue) : List JValue :=
  [jobjL [("id", .jstr "L2_001"), ("title", .jstr "Basic Scenario"),
          ("description", .jstr "Test basic scenario"), ("parent_l1_id", pid)],
   jobjL [("id", .jstr "L2_002"), ("title", .jstr "Advanced Scenario"),
          ("description", .jstr "Test advanced scenario"), ("parent_l1_id", pid)]]

/-- generate_l2_cases parse step (lines 605-617). -/
def l2_cases_from_parse (parsed : Option JValue) (sel : JValue) : List JValue :=
  let pid := jgetD sel "id" (.jstr "L1_001")
  match parsed with
  | none => l2_cases_fallback pid
  | some v =>
    match (wrap_if_not_list v).mapM (try_set_parent "parent_l1_id" pid) with
    | some cases => cases
    | none => l2_cases_fallback pid

/-- L3 parse-failure fallback (lines 939-948): a single case carrying the parent id. -/
def l3_cases_fallback (pid : JValue) : List JValue :=
  [jobjL [("id", .jstr "L3_001"), ("title", .jstr "Detailed Test Case 1"),
          ("description", .jstr "Test detailed scenario 1"),
          ("test_steps", jarrL [.jstr "Step 1", .jstr "Step 2"]),
          ("expected_result", .jstr "Expected result"), ("parent_l2_id", pid)]]

/-- generate_l3_cases parse step (lines 930-948). -/
def l3_cases_from_parse (parsed : Option JValue) (sel : JValue) : List JValue :=
  let pid := jgetD sel "id" (.jstr "L2_001")
  match parsed with
  | none => l3_cases_fallback pid
  | some v =>
    match (wrap_if_not_list v).mapM (try_set_parent "parent_l2_id" pid) with
    | some cases => cases
    | none => l3_cases_fallback pid

/-- stream_generate_l3_cases parse step (lines 1964-1981); its fallback is the
same single case as the non-streaming one. -/
def stream_l3_cases_from_parse (parsed : Option JValue) (sel : JValue) : List JValue :=
  let pid := jgetD sel "id" (.jstr "L2_001")
  match parsed with
  | none => l3_cases_fallback pid
  | some v =>
    match (wrap_if_not_list v).mapM (try_set_parent "parent_l2_id" pid) with
    | some cases => cases
    | none => l3_cases_fallback pid

/-! ## HierarchyMerger and the generators (lines 526-642 and 764-967) -/

/-- The merge step inlined at lines 619-628 (and 950-959 with the L3 key):
replace-by-parent, never a per-case merge. -/
def merge_cases_by_parent (key : String) (existing new_cases : List JValue)
    (parent_id : Option JValue) : List JValue :=
  let existing_for := existing.filter (fun tc => opt_eq (jget tc key) parent_id)
  if existing_for.isEmpty then existing ++ new_cases
  else (existing.filter (fun tc => !(opt_eq (jget tc key) parent_id))) ++ new_cases

/-- generate_l2_cases (lines 526-642).  summary_response feeds the inner
update_global_summary; parsed is the case-generation parse result. -/
def generate_l2_cases (st : SessionState) (summary_response : String)
    (parsed : Option JValue) : SessionState :=
  match st.selected_l1_case with
  | none =>
    { st with l2_test_cases := st.l2_test_cases,
              selected_l1_case := none, selected_l1_index := none,
              l2_clarification_questions := [], l2_clarification_answers := [] }
  | some sel =>
    let st1 := update_global_summary st summary_response
    let new_cases := l2_cases_from_parse parsed sel
    let merged := merge_cases_by_parent "parent_l1_id" st1.l2_test_cases new_cases
        (jget sel "id")
    { st1 with l2_test_cases := merged,
               selected_l1_case := none, selected_l1_index := none,
               selected_l2_case := none, selected_l2_index := none,
               l2_clarification_questions := [], l2_clarification_answers := [],
               l3_clarification_questions := [], l3_clarification_answers := [] }

/-- generate_l3_cases (lines 764-967). -/
def generate_l3_cases (st : SessionState) (summary_response : String)
    (parsed : Option JValue) : SessionState :=
  match st.selected_l2_case with
  | none =>
    { st with l3_test_cases := st.l3_test_cases,
              selected_l2_case := none, selected_l2_index := none,
              l3_clarification_questions := [], l3_clarification_answers := [] }
  | some sel =>
    let st1 := update_global_summary st summary_response
    let new_cases := l3_cases_from_parse parsed sel
    let merged := merge_cases_by_parent "parent_l2_id" st1.l3_test_cases new_cases
        (jget sel "id")
    { st1 with l3_test_cases := merged,
               selected_l2_case := none, selected_l2_index := none,
               l3_clarification_questions := [], l3_clarification_answers := [] }

/-- ask_l2_questions (lines 426-523): with no selection, clear L2 questions and
fall back to level l1 without consuming the LLM; otherwise parse (or fall back)
and advance to level l2. -/
def ask_l2_questions (st : SessionState) (parse : String → Option JValue)
    (content : String) : SessionState :=
  match st.selected_l1_case with
  | none => { st with l2_clarification_questions := [], current_level := .l1 }
  | some sel =>
    let qs := match parse content with
      | some v => normalize_questions v
      | none => l2_questions_fallback sel
    { st with l2_clarification_questions := qs, current_level := .l2 }

/-- Completion result of stream_ask_l2_questions (lines 1567-1645). -/
def stream_ask_l2_questions_result (st : SessionState) (parse : String → Option JValue)
    (content : String) : List JValue :=
  match st.selected_l1_case with
  | none => []
  | some sel =>
    match parse content with
    | some v => normalize_questions v
    | none => stream_l2_questions_fallback sel

/-- TestCaseGenerator.select_l1_case (lines 1229-1276): the selection is stored
only for an in-range index, but the L2/L3 clearing and the L2 question
generation run unconditionally; no error is ever raised. -/
def select_l1_case (st : SessionState) (l1_index : Int)
    (parse : String → Option JValue) (content : String) : SessionState :=
  let l1_cases := st.l1_test_cases
  let st1 :=
    if 0 ≤ l1_index ∧ l1_index < (l1_cases.length : Int) then
      { st with selected_l1_case := l1_cases[l1_index.toNat]?,
                selected_l1_index := some l1_index }
    else st
  let st2 := { st1 with
      l2_clarification_questions := [], l2_clarification_answers := [],
      selected_l2_case := none, selected_l2_index := none,
      l3_clarification_questions := [], l3_clarification_answers := [] }
  ask_l2_questions st2 parse content

/-- TestCaseGenerator.submit_l2_answers (lines 1278-1310): store the answers,
then run generate_l2_cases. -/
def submit_l2_answers (st : SessionState) (answers : List (String × String))
    (summary_response : String) (parsed : Option JValue) : SessionState :=
  generate_l2_cases { st with l2_clarification_answers := answers } summary_response parsed

/-- The select_l1_case_stream endpoint of main.py (lines 794-930), from the point
where the session state has been loaded: the index is validated BEFORE any state
mutation or LLM call; on success the selection is stored, L2/L3 state cleared,
and the streamed L2 questions installed. -/
def select_l1_case_stream (st : SessionState) (l1_index : Int)
    (parse : String → Option JValue) (content : String) : Except String SessionState :=
  let l1_cases := st.l1_test_cases
  if l1_index ≥ (l1_cases.length : Int) ∨ l1_index < 0 then
    .error ("Invalid l1_index. Must be between 0 and " ++ toString ((l1_cases.length : Int) - 1))
  else
    let st1 := { st with
        selected_l1_case := l1_cases[l1_index.toNat]?,
        selected_l1_index := some l1_index,
        l2_clarification_questions := [], l2_clarification_answers := [],
        selected_l2_case := none, selected_l2_index := none,
        l3_clarification_questions := [], l3_clarification_answers := [] }
    let questions := stream_ask_l2_questions_result st1 parse content
    .ok { st1 with l2_clarification_questions := questions, current_level := .l2 }

/-! ## TreeBuilder (build_tree, lines 970-1021) -/

def mk_l3_node (c : JValue) : L3Node :=
  ⟨jgetD c "id" (.jstr ""), jgetD c "title" (.jstr ""), jgetD c "description" (.jstr ""),
   jgetD c "test_steps" (jarrL []), jgetD c "expected_result" (.jstr "")⟩

def mk_l2_node (c : JValue) (l3s : List L3Node) : L2Node :=
  ⟨jgetD c "id" (.jstr ""), jgetD c "title" (.jstr ""), jgetD c "description" (.jstr ""), l3s⟩

def mk_l1_node (c : JValue) (l2s : List L2Node) : L1Node :=
  ⟨jgetD c "id" (.jstr ""), jgetD c "title" (.jstr ""), jgetD c "description" (.jstr ""), l2s⟩

/-- The inner L3 loop (lines 1002-1012): append every matching L3 case in order. -/
def build_l3_nodes (l3s : List JValue) (l2_id : Option JValue) : List L3Node :=
  l3s.foldl (fun acc c =>
    if opt_eq (jget c "parent_l2_id") l2_id then acc ++ [mk_l3_node c] else acc) []

/-- The middle L2 loop (lines 991-1014). -/
def build_l2_nodes (l2s l3s : List JValue) (l1_id : Option JValue) : List L2Node :=
  l2s.foldl (fun acc c =>
    if opt_eq (jget c "parent_l1_id") l1_id then
      acc ++ [mk_l2_node c (build_l3_nodes l3s (jget c "id"))]
    else acc) []

/-- The outer L1 loop (lines 981-1016). -/
def build_l1_nodes (l1s l2s l3s : List JValue) : List L1Node :=
  l1s.foldl (fun acc c => acc ++ [mk_l1_node c (build_l2_nodes l2s l3s (jget c "id"))]) []

/-- build_tree (lines 970-1021). -/
def build_tree (st : SessionState) : SessionState :=
  { st with
    full_tree_data := some
      ⟨build_l1_nodes st.l1_test_cases st.l2_test_cases st.l3_test_cases,
       st.session_id, st.user_initial_prompt⟩,
    current_level := .complete }

/-- The specification reading of the tree builder: one node per L1 case, whose
children are exactly the filter of the flat collections by parent reference. -/
def tree_by_filter (st : SessionState) : TreeData :=
  ⟨st.l1_test_cases.map (fun c1 =>
      mk_l1_node c1
        ((st.l2_test_cases.filter (fun c2 => opt_eq (jget c2 "parent_l1_id") (jget c1 "id"))).map
          (fun c2 =>
            mk_l2_node c2
              ((st.l3_test_cases.filter (fun c3 =>
                  opt_eq (jget c3 "parent_l2_id") (jget c2 "id"))).map mk_l3_node)))),
   st.session_id, st.user_initial_prompt⟩

/-- stream_generate_l1_cases parse step (lines 1555-1565); its parse-failure
fallback is the same 2-case list as the non-streaming generator. -/
def stream_l1_cases_from_parse (parsed : Option JValue) : List JValue :=
  match parsed with
  | none => l1_cases_fallback
  | some v => wrap_if_not_list v

/-- Fallback of stream_generate_l2_cases (1 case only, lines 1725-1727). -/
def stream_l2_cases_fallback (pid : JValue) : List JValue :=
  [jobjL [("id", .jstr "L2_001"), ("title", .jstr "Basic Scenario"),
          ("description", .jstr "Test basic scenario"), ("parent_l1_id", pid)]]

/-- stream_generate_l2_cases parse step (lines 1717-1729). -/
def stream_l2_cases_from_parse (parsed : Option JValue) (sel : JValue) : List JValue :=
  let pid := jgetD sel "id" (.jstr "L1_001")
  match parsed with
  | none => stream_l2_cases_fallback pid
  | some v =>
    match (wrap_if_not_list v).mapM (try_set_parent "parent_l1_id" pid) with
    | some cases => cases
    | none => stream_l2_cases_fallback pid

/-- Fallback of ask_l3_questions (3 questions, lines 752-756). -/
def l3_questions_fallback (sel : JValue) : List JValue :=
  [mkQuestion ("What are the specific test steps for "
        ++ JValue.py_str (jgetD sel "title" (.jstr "this scenario")) ++ "?")
      ["Setup", "Execute", "Verify", "Cleanup"],
   mkQuestion "What are the expected results?"
      ["Success", "Failure", "Partial Success", "Error"],
   mkQuestion "What are the test data requirements?"
      ["Valid Data", "Invalid Data", "Boundary Values", "Null Values"]]

/-- Fallback of stream_ask_l3_questions (1 question only, lines 1819-1821). -/
def stream_l3_questions_fallback (sel : JValue) : List JValue :=
  [mkQuestion ("What are the specific test steps for "
        ++ JValue.py_str (jgetD sel "title" (.jstr "this scenario")) ++ "?")
      ["Setup", "Execute", "Verify", "Cleanup"]]

/-- ask_l3_questions (lines 647-761): with no L2 selection, clear L3 questions
and fall back to level l2 without consuming the LLM; otherwise parse (or fall
back) and advance to level l3.  The parent-L1 lookup at lines 663-669 only
shapes the prompt text and is not part of the returned state. -/
def ask_l3_questions (st : SessionState) (parse : String → Option JValue)
    (content : String) : SessionState :=
  match st.selected_l2_case with
  | none => { st with l3_clarification_questions := [], current_level := .l2 }
  | some sel =>
    let qs := match parse content with
      | some v => normalize_questions v
      | none => l3_questions_fallback sel
    { st with l3_clarification_questions := qs, current_level := .l3 }

/-- Completion result of stream_ask_l3_questions (lines 1731-1823). -/
def stream_ask_l3_questions_result (st : SessionState) (parse : String → Option JValue)
    (content : String) : List JValue :=
  match st.selected_l2_case with
  | none => []
  | some sel =>
    match parse content with
    | some v => normalize_questions v
    | none => stream_l3_questions_fallback sel

/-! ## Concrete instances used by witnesses and counterexamples -/

def emptyState : SessionState :=
  { user_initial_prompt := "p"
    l1_clarification_questions := []
    l1_clarification_answers := []
    l1_test_cases := []
    selected_l1_case := none
    selected_l1_index := none
    l2_clarification_questions := []
    l2_clarification_answers := []
    l2_test_cases := []
    selected_l2_case := none
    selected_l2_index := none
    l3_clarification_questions := []
    l3_clarification_answers := []
    l3_test_cases := []
    answered_history := []
    global_summary := ""
    full_tree_data := none
    current_level := .l1
    session_id := "s" }

def qQ1 : JValue := mkQuestion "Q1" ["a"]

def caseL1a : JValue :=
  jobjL [("id", .jstr "L1_001"), ("title", .jstr "Login"), ("description", .jstr "Auth flows")]

def caseL1b : JValue :=
  jobjL [("id", .jstr "L1_002"), ("title", .jstr "Orders"), ("description", .jstr "Order flows")]

def caseL2a : JValue :=
  jobjL [("id", .jstr "L2_001"), ("title", .jstr "Valid login"),
         ("description", .jstr "d1"), ("parent_l1_id", .jstr "L1_001")]

def caseL2b : JValue :=
  jobjL [("id", .jstr "L2_002"), ("title", .jstr "Invalid login"),
         ("description", .jstr "d2"), ("parent_l1_id", .jstr "L1_001")]

def caseL2other : JValue :=
  jobjL [("id", .jstr "L2_009"), ("title", .jstr "Sibling"),
         ("description", .jstr "d9"), ("parent_l1_id", .jstr "L1_002")]

def caseL3a : JValue :=
  jobjL [("id", .jstr "L3_001"), ("title", .jstr "Step case"), ("description", .jstr "d"),
         ("test_steps", jarrL [.jstr "Step 1"]), ("expected_result", .jstr "ok"),
         ("parent_l2_id", .jstr "L2_001")]

def selC8 : JValue := jobjL [("id", .jstr "L2_007")]

def parse_fail : String → Option JValue := fun _ => none

def parse_empty_arr : String → Option JValue := fun _ => some (jarrL [])

def stC1 : SessionState :=
  { emptyState with l1_test_cases := [caseL1a, caseL1b], l2_clarification_questions := [qQ1] }

def stC3 : SessionState :=
  { emptyState with selected_l1_case := some caseL1a, l2_test_cases := [caseL2other] }

def stC4 : SessionState :=
  { emptyState with l1_clarification_questions := [qQ1],
                    l1_clarification_answers := [("Q1", "A1")] }

def stC5 : SessionState :=
  { emptyState with answered_history := [⟨"Q", "A", "L1", "Initial business clarification"⟩] }

def stC7 : SessionState := { emptyState with l2_clarification_questions := [qQ1] }

def stW : SessionState :=
  { emptyState with l1_test_cases := [caseL1a], l2_test_cases := [caseL2a],
                    l3_test_cases := [caseL3a] }

def nodeW : L1Node :=
  mk_l1_node caseL1a (build_l2_nodes stW.l2_test_cases stW.l3_test_cases (jget caseL1a "id"))

def treeW : TreeData := ⟨[nodeW], stW.session_id, stW.user_initial_prompt⟩

/-! ## Helper lemmas: the history scan -/

theorem scan_level_mem_mono (ans : List (String × String)) (lvl ctx : String)
    (qs : List JValue) :
    ∀ (h : List QAPair) (p : QAPair), p ∈ h → p ∈ scan_level ans lvl ctx qs h := by
  induction qs with
  | nil => intro h p hp; simpa [scan_level] using hp
  | cons q qs ih =>
    intro h p hp
    rw [scan_level]
    cases hc : candidate_qa ans lvl ctx q with
    | none => exact ih h p hp
    | some p0 =>
      show p ∈ scan_level ans lvl ctx qs (if p0 ∈ h then h else h ++ [p0])
      by_cases hm : p0 ∈ h
      · rw [if_pos hm]; exact ih h p hp
      · rw [if_neg hm]; exact ih _ p (List.mem_append_left _ hp)

theorem candidate_qa_answer (ans : List (String × String)) (lvl ctx : String)
    (q : JValue) (p : QAPair) (h : candidate_qa ans lvl ctx q = some p) :
    py_strip p.answer ≠ "" := by
  unfold candidate_qa at h
  split at h
  · exact absurd h (by simp)
  · split at h
    · exact absurd h (by simp)
    · split at h
      · exact absurd h (by simp)
      · rename_i a ha hne
        cases h
        simpa using hne

theorem scan_level_mem_src (ans : List (String × String)) (lvl ctx : String)
    (qs : List JValue) :
    ∀ (h : List QAPair) (p : QAPair), p ∈ scan_level ans lvl ctx qs h →
      p ∈ h ∨ py_strip p.answer ≠ "" := by
  induction qs with
  | nil => intro h p hp; exact Or.inl (by simpa [scan_level] using hp)
  | cons q qs ih =>
    intro h p hp
    rw [scan_level] at hp
    cases hc : candidate_qa ans lvl ctx q with
    | none => rw [hc] at hp; exact ih h p hp
    | some p0 =>
      rw [hc] at hp
      replace hp : p ∈ scan_level ans lvl ctx qs (if p0 ∈ h then h else h ++ [p0]) := hp
      by_cases hm : p0 ∈ h
      · rw [if_pos hm] at hp; exact ih h p hp
      · rw [if_neg hm] at hp
        rcases ih _ p hp with hin | hne
        · rcases List.mem_append.mp hin with hin | hin
          · exact Or.inl hin
          · have : p = p0 := by simpa using hin
            subst this
            exact Or.inr (candidate_qa_answer ans lvl ctx q p hc)
        · exact Or.inr hne

theorem scan_level_nodup (ans : List (String × String)) (lvl ctx : String)
    (qs : List JValue) :
    ∀ (h : List QAPair), h.Nodup → (scan_level ans lvl ctx qs h).Nodup := by
  induction qs with
  | nil => intro h hn; simpa [scan_level] using hn
  | cons q qs ih =>
    intro h hn
    rw [scan_level]
    cases hc : candidate_qa ans lvl ctx q with
    | none => exact ih h hn
    | some p0 =>
      show (scan_level ans lvl ctx qs (if p0 ∈ h then h else h ++ [p0])).Nodup
      by_cases hm : p0 ∈ h
      · rw [if_pos hm]; exact ih h hn
      · rw [if_neg hm]
        exact ih _ (by simp [List.nodup_append, hn, hm])

theorem scan_level_cand_mem (ans : List (String × String)) (lvl ctx : String)
    (qs : List JValue) :
    ∀ (h : List QAPair) (q : JValue), q ∈ qs → ∀ (p : QAPair),
      candidate_qa ans lvl ctx q = some p → p ∈ scan_level ans lvl ctx qs h := by
  induction qs with
  | nil => intro h q hq; exact absurd hq (by simp)
  | cons q0 qs ih =>
    intro h q hq p hp
    rw [scan_level]
    rcases List.mem_cons.mp hq with rfl | hq2
    · rw [hp]
      show p ∈ scan_level ans lvl ctx qs (if p ∈ h then h else h ++ [p])
      by_cases hm : p ∈ h
      · rw [if_pos hm]; exact scan_level_mem_mono ans lvl ctx qs h p hm
      · rw [if_neg hm]
        exact scan_level_mem_mono ans lvl ctx qs _ p (by simp)
    · cases hc : candidate_qa ans lvl ctx q0 with
      | none => exact ih h q hq2 p hp
      | some p0 => exact ih _ q hq2 p hp

theorem scan_level_stable (ans : List (String × String)) (lvl ctx : String)
    (qs : List JValue) :
    ∀ (h : List QAPair),
      (∀ q ∈ qs, ∀ p, candidate_qa ans lvl ctx q = some p → p ∈ h) →
      scan_level ans lvl ctx qs h = h := by
  induction qs with
  | nil => intro h _; rfl
  | cons q qs ih =>
    intro h hall
    rw [scan_level]
    cases hc : candidate_qa ans lvl ctx q with
    | none => exact ih h (fun q2 hq p hp => hall q2 (List.mem_cons_of_mem _ hq) p hp)
    | some p0 =>
      show scan_level ans lvl ctx qs (if p0 ∈ h then h else h ++ [p0]) = h
      rw [if_pos (hall q (List.mem_cons_self q qs) p0 hc)]
      exact ih h (fun q2 hq p hp => hall q2 (List.mem_cons_of_mem _ hq) p hp)

theorem update_global_summary_eq (st : SessionState) (r : String) :
    update_global_summary st r =
      { st with answered_history := scan_all st,
                global_summary := if (scan_all st).isEmpty then "" else py_strip r } := by
  unfold update_global_summary
  by_cases h : (scan_all st).isEmpty <;> simp [h]

theorem update_global_summary_idem (st : SessionState) (r1 r2 : String) :
    (update_global_summary (update_global_summary st r1) r2).answered_history
      = (update_global_summary st r1).answered_history := by
  have hbase : ∀ p1 : QAPair,
      p1 ∈ scan_level st.l1_clarification_answers "L1" "Initial business clarification"
            st.l1_clarification_questions st.answered_history →
      p1 ∈ scan_all st := by
    intro p1 hp1
    exact scan_level_mem_mono _ _ _ _ _ p1 (scan_level_mem_mono _ _ _ _ _ p1 hp1)
  have hL1 : ∀ q ∈ st.l1_clarification_questions, ∀ p : QAPair,
      candidate_qa st.l1_clarification_answers "L1" "Initial business clarification" q = some p →
      p ∈ scan_all st :=
    fun q hq p hp => hbase p (scan_level_cand_mem _ _ _ _ st.answered_history q hq p hp)
  have hL2 : ∀ q ∈ st.l2_clarification_questions, ∀ p : QAPair,
      candidate_qa st.l2_clarification_answers "L2" (l2_history_context st.selected_l1_case) q
        = some p →
      p ∈ scan_all st :=
    fun q hq p hp =>
      scan_level_mem_mono _ _ _ _ _ p (scan_level_cand_mem _ _ _ _
        (scan_level st.l1_clarification_answers "L1" "Initial business clarification"
          st.l1_clarification_questions st.answered_history) q hq p hp)
  have hL3 : ∀ q ∈ st.l3_clarification_questions, ∀ p : QAPair,
      candidate_qa st.l3_clarification_answers "L3" (l3_history_context st.selected_l2_case) q
        = some p →
      p ∈ scan_all st :=
    fun q hq p hp => scan_level_cand_mem _ _ _ _ _ q hq p hp
  rw [update_global_summary_eq st r1, update_global_summary_eq]
  show scan_level st.l3_clarification_answers "L3" (l3_history_context st.selected_l2_case)
        st.l3_clarification_questions
        (scan_level st.l2_clarification_answers "L2" (l2_history_context st.selected_l1_case)
          st.l2_clarification_questions
          (scan_level st.l1_clarification_answers "L1" "Initial business clarification"
            st.l1_clarification_questions (scan_all st))) = scan_all st
  rw [scan_level_stable _ _ _ _ (scan_all st) hL1,
      scan_level_stable _ _ _ _ (scan_all st) hL2,
      scan_level_stable _ _ _ _ (scan_all st) hL3]

/-- Claim C4: update_global_summary preserves freedom from duplicate
(question, answer, level, context) tuples in answered_history, appends a tuple
only when its answer is non-empty after stripping whitespace (every new entry
has a non-whitespace answer), and running it twice in a row with no new answers
in between leaves answered_history unchanged. -/
theorem claim_C4 (st : SessionState) (r1 r2 : String) :
    (st.answered_history.Nodup → (update_global_summary st r1).answered_history.Nodup)
    ∧ (∀ p ∈ (update_global_summary st r1).answered_history,
        p ∈ st.answered_history ∨ py_strip p.answer ≠ "")
    ∧ (update_global_summary (update_global_summary st r1) r2).answered_history
        = (update_global_summary st r1).answered_history := by
  refine ⟨?_, ?_, update_global_summary_idem st r1 r2⟩
  · intro hn
    rw [update_global_summary_eq]
    show (scan_all st).Nodup
    exact scan_level_nodup _ _ _ _ _
      (scan_level_nodup _ _ _ _ _ (scan_level_nodup _ _ _ _ _ hn))
  · intro p hp
    rw [update_global_summary_eq] at hp
    replace hp : p ∈ scan_all st := hp
    unfold scan_all at hp
    rcases scan_level_mem_src _ _ _ _ _ p hp with h3 | h3
    · rcases scan_level_mem_src _ _ _ _ _ p h3 with h2 | h2
      · rcases scan_level_mem_src _ _ _ _ _ p h2 with h1 | h1
        · exact Or.inl h1
        · exact Or.inr h1
      · exact Or.inr h2
    · exact Or.inr h3

/-- Witness for C4 at a concrete state with one answered L1 question. -/
theorem claim_C4_witness :
    (update_global_summary stC4 "s").answered_history.Nodup
    ∧ (update_global_summary (update_global_summary stC4 "s") "t").answered_history
        = (update_global_summary stC4 "s").answered_history :=
  ⟨(claim_C4 stC4 "s" "t").1 (by decide), (claim_C4 stC4 "s" "t").2.2⟩

/-- Claim C5 (amended): after update_global_summary, an empty answered_history
forces an empty global_summary and the update is independent of the LLM response
(no TextCompletion call is consumed); with a non-empty history the summary is
the stripped LLM response verbatim — which is empty exactly when the response is
whitespace-only, so the claimed iff does not hold in that direction. -/
theorem claim_C5_amended (st : SessionState) (r : String) :
    ((update_global_summary st r).answered_history = [] →
      (update_global_summary st r).global_summary = ""
      ∧ ∀ r2, update_global_summary st r2 = update_global_summary st r)
    ∧ ((update_global_summary st r).answered_history ≠ [] →
      (update_global_summary st r).global_summary = py_strip r) := by
  constructor
  · intro h
    rw [update_global_summary_eq] at h ⊢
    replace h : scan_all st = [] := h
    have he : (scan_all st).isEmpty = true := by simp [h]
    constructor
    · show (if (scan_all st).isEmpty then "" else py_strip r) = ""
      rw [he]
      rfl
    · intro r2
      rw [update_global_summary_eq st r2]
      simp [he]
  · intro h
    rw [update_global_summary_eq] at h ⊢
    replace h : scan_all st ≠ [] := h
    have he : (scan_all st).isEmpty = false := by
      rcases hx : scan_all st with _ | ⟨a, l⟩
      · exact absurd hx h
      · rfl
    show (if (scan_all st).isEmpty then "" else py_strip r) = py_strip r
    rw [he]
    rfl

/-- Witness for C5 (amended) at the empty state and at a one-entry history. -/
theorem claim_C5_witness :
    (update_global_summary emptyState "ignored").global_summary = ""
    ∧ (update_global_summary stC5 "  two sentences  ").global_summary
        = py_strip "  two sentences  " :=
  ⟨((claim_C5_amended emptyState "ignored").1 (by decide)).1,
   (claim_C5_amended stC5 "  two sentences  ").2 (by decide)⟩

/-- Counterexample for C5 as stated: with a non-empty answered_history and a
whitespace-only LLM response the summary comes back empty, so
global_summary = "" does not imply answered_history = []. -/
theorem claim_C5_counterexample :
    (update_global_summary stC5 "").answered_history ≠ []
    ∧ (update_global_summary stC5 "").global_summary = "" := by
  constructor
  · decide
  · rfl

/-- Claim C7 (amended): submitting L2 answers with no L1 case selected never
throws and makes no LLM call (the result is independent of both LLM inputs, as
the right-hand side shows), generates no cases and touches no selection or L3
field — but it is not a complete no-op: l2_clarification_questions is cleared,
the submitted answers are discarded, and selected_l1_index is overwritten with
none. -/
theorem claim_C7_amended (st : SessionState) (answers : List (String × String))
    (r : String) (parsed : Option JValue) (h : st.selected_l1_case = none) :
    submit_l2_answers st answers r parsed =
      { st with l2_clarification_questions := [], l2_clarification_answers := [],
                selected_l1_index := none } := by
  unfold submit_l2_answers generate_l2_cases
  simp [h]

/-- Witness for C7 (amended) at a concrete state with pending L2 questions. -/
theorem claim_C7_witness :
    submit_l2_answers stC7 [("X", "Y")] "resp" none =
      { stC7 with l2_clarification_questions := [], l2_clarification_answers := [],
                  selected_l1_index := none } :=
  claim_C7_amended stC7 [("X", "Y")] "resp" none rfl

/-- Counterexample for C7 as stated: the returned state is not completely
unchanged — the pending L2 question list of stC7 is cleared. -/
theorem claim_C7_counterexample : submit_l2_answers stC7 [] "" none ≠ stC7 :=
  fun h => absurd (congrArg (fun s => s.l2_clarification_questions.length) h) (by decide)

/-- Claim C1 (amended): the select_l1_case_stream endpoint rejects an
out-of-range index with a 400 validation error before any state mutation or LLM
call (the error branch precedes every write and never consumes the stream). -/
theorem claim_C1_amended (st : SessionState) (l1_index : Int)
    (parse : String → Option JValue) (content : String)
    (h : l1_index ≥ (st.l1_test_cases.length : Int) ∨ l1_index < 0) :
    select_l1_case_stream st l1_index parse content =
      .error ("Invalid l1_index. Must be between 0 and "
        ++ toString ((st.l1_test_cases.length : Int) - 1)) := by
  simp only [select_l1_case_stream]
  rw [if_pos h]

/-- Witness for C1 (amended): index 5 against 2 cases is rejected. -/
theorem claim_C1_witness :
    select_l1_case_stream stC1 5 parse_fail "" =
      .error ("Invalid l1_index. Must be between 0 and "
        ++ toString ((stC1.l1_test_cases.length : Int) - 1)) :=
  claim_C1_amended stC1 5 parse_fail "" (by decide)

/-- Counterexample for C1 as stated: TestCaseGenerator.select_l1_case with
index 5 against 2 cases raises nothing and does not leave the state as it was —
the pending L2 question list is cleared. -/
theorem claim_C1_counterexample :
    select_l1_case stC1 5 parse_fail "" ≠ stC1
    ∧ (select_l1_case stC1 5 parse_fail "").l2_clarification_questions = []
    ∧ stC1.l2_clarification_questions.length = 1 :=
  ⟨fun h => absurd (congrArg (fun s => s.l2_clarification_questions.length) h) (by decide),
   rfl, rfl⟩

/-- Every existing case whose parent reference differs from the one being
regenerated survives the merge (both branches of the replace-by-parent merge
keep it). -/
theorem merge_preserves_other_parents (key : String) (existing new_cases : List JValue)
    (p : Option JValue) (tc : JValue) (hm : tc ∈ existing)
    (hne : opt_eq (jget tc key) p = false) :
    tc ∈ merge_cases_by_parent key existing new_cases p := by
  simp only [merge_cases_by_parent]
  by_cases he : (existing.filter (fun tc => opt_eq (jget tc key) p)).isEmpty = true
  · rw [if_pos he]
    exact List.mem_append_left _ hm
  · rw [if_neg he]
    exact List.mem_append_left _ (List.mem_filter.mpr ⟨hm, by simp [hne]⟩)

/-- Claim C2: merging new into the empty collection for parent P and then newer
into the result for the same P yields exactly newer, when every element of both
lists carries parent reference P — full replacement, never a superset. -/
theorem claim_C2 (key : String) (new_cases newer_cases : List JValue) (P : JValue)
    (h1 : ∀ tc ∈ new_cases, opt_eq (jget tc key) (some P) = true)
    (_h2 : ∀ tc ∈ newer_cases, opt_eq (jget tc key) (some P) = true) :
    merge_cases_by_parent key (merge_cases_by_parent key [] new_cases (some P))
      newer_cases (some P) = newer_cases := by
  have hbase : merge_cases_by_parent key [] new_cases (some P) = new_cases := by
    simp [merge_cases_by_parent]
  rw [hbase]
  rcases hn : new_cases with _ | ⟨c, cs⟩
  · simp [merge_cases_by_parent]
  · have hfull : (c :: cs).filter (fun tc => opt_eq (jget tc key) (some P)) = c :: cs :=
      List.filter_eq_self.mpr (by intro a ha; exact h1 a (hn ▸ ha))
    have hnil : (c :: cs).filter (fun tc => !(opt_eq (jget tc key) (some P))) = [] :=
      List.filter_eq_nil_iff.mpr (by intro a ha; simp [h1 a (hn ▸ ha)])
    simp [merge_cases_by_parent, hfull, hnil]

/-- Witness for C2 with two one-element generations for parent L1_001. -/
theorem claim_C2_witness :
    merge_cases_by_parent "parent_l1_id"
      (merge_cases_by_parent "parent_l1_id" [] [caseL2a] (some (.jstr "L1_001")))
      [caseL2b] (some (.jstr "L1_001")) = [caseL2b] :=
  claim_C2 "parent_l1_id" [caseL2a] [caseL2b] (.jstr "L1_001") (by decide) (by decide)

/-- Claim C3: regenerating the children of one parent leaves every existing L2
(resp. L3) case whose parent reference differs present in the merged collection,
unmodified (the very same record is still a member). -/
theorem claim_C3 (st : SessionState) (r : String) (parsed : Option JValue) :
    (∀ sel, st.selected_l1_case = some sel →
      ∀ tc ∈ st.l2_test_cases,
        opt_eq (jget tc "parent_l1_id") (jget sel "id") = false →
          tc ∈ (generate_l2_cases st r parsed).l2_test_cases)
    ∧ (∀ sel, st.selected_l2_case = some sel →
      ∀ tc ∈ st.l3_test_cases,
        opt_eq (jget tc "parent_l2_id") (jget sel "id") = false →
          tc ∈ (generate_l3_cases st r parsed).l3_test_cases) := by
  constructor
  · intro sel hsel tc hmem hne
    unfold generate_l2_cases
    rw [hsel]
    show tc ∈ merge_cases_by_parent "parent_l1_id"
        (update_global_summary st r).l2_test_cases (l2_cases_from_parse parsed sel)
        (jget sel "id")
    have hpres : (update_global_summary st r).l2_test_cases = st.l2_test_cases := by
      rw [update_global_summary_eq]
    rw [hpres]
    exact merge_preserves_other_parents _ _ _ _ tc hmem hne
  · intro sel hsel tc hmem hne
    unfold generate_l3_cases
    rw [hsel]
    show tc ∈ merge_cases_by_parent "parent_l2_id"
        (update_global_summary st r).l3_test_cases (l3_cases_from_parse parsed sel)
        (jget sel "id")
    have hpres : (update_global_summary st r).l3_test_cases = st.l3_test_cases := by
      rw [update_global_summary_eq]
    rw [hpres]
    exact merge_preserves_other_parents _ _ _ _ tc hmem hne

/-- Witness for C3: a sibling L2 case under L1_002 survives regenerating the
children of L1_001. -/
theorem claim_C3_witness :
    caseL2other ∈ (generate_l2_cases stC3 "" none).l2_test_cases :=
  (claim_C3 stC3 "" none).1 caseL1a rfl caseL2other
    (List.mem_singleton_self caseL2other) (by decide)

/-! ## Helper lemmas: the tree-building loops are filter-and-map -/

theorem foldl_append_filter {α : Type} (f : JValue → α) (p : JValue → Bool) :
    ∀ (cs : List JValue) (acc : List α),
      cs.foldl (fun acc c => if p c then acc ++ [f c] else acc) acc
        = acc ++ (cs.filter p).map f := by
  intro cs
  induction cs with
  | nil => intro acc; simp
  | cons c cs ih =>
    intro acc
    rw [List.foldl_cons]
    by_cases hp : p c
    · rw [if_pos hp, ih, List.filter_cons_of_pos hp]
      simp
    · rw [if_neg hp, ih, List.filter_cons_of_neg hp]

theorem foldl_append_map {α : Type} (f : JValue → α) :
    ∀ (cs : List JValue) (acc : List α),
      cs.foldl (fun acc c => acc ++ [f c]) acc = acc ++ cs.map f := by
  intro cs
  induction cs with
  | nil => intro acc; simp
  | cons c cs ih =>
    intro acc
    rw [List.foldl_cons, ih]
    simp

theorem build_l3_nodes_eq (l3s : List JValue) (l2_id : Option JValue) :
    build_l3_nodes l3s l2_id
      = (l3s.filter (fun c => opt_eq (jget c "parent_l2_id") l2_id)).map mk_l3_node := by
  unfold build_l3_nodes
  rw [foldl_append_filter]
  simp

theorem build_l2_nodes_eq (l2s l3s : List JValue) (l1_id : Option JValue) :
    build_l2_nodes l2s l3s l1_id
      = (l2s.filter (fun c => opt_eq (jget c "parent_l1_id") l1_id)).map
          (fun c => mk_l2_node c (build_l3_nodes l3s (jget c "id"))) := by
  unfold build_l2_nodes
  rw [foldl_append_filter (fun c => mk_l2_node c (build_l3_nodes l3s (jget c "id")))
      (fun c => opt_eq (jget c "parent_l1_id") l1_id)]
  simp

theorem build_l1_nodes_eq (l1s l2s l3s : List JValue) :
    build_l1_nodes l1s l2s l3s
      = l1s.map (fun c => mk_l1_node c (build_l2_nodes l2s l3s (jget c "id"))) := by
  unfold build_l1_nodes
  rw [foldl_append_map]
  simp

/-- Claim C6: build_tree produces exactly the filter-and-map tree — one node per
L1 case, whose l2_cases are exactly the L2 cases whose parent_l1_id equals its
id, each carrying exactly the L3 cases whose parent_l2_id equals the L2 id.  A
case with no matching children gets an empty child list (the filter is empty),
and an L3 case whose parent_l2_id matches no L2 case simply occurs in no
filter — it is dropped without any error (build_tree is total). -/
theorem claim_C6 (st : SessionState) :
    (build_tree st).full_tree_data = some (tree_by_filter st) := by
  unfold build_tree tree_by_filter
  simp only [build_l1_nodes_eq, build_l2_nodes_eq, build_l3_nodes_eq]

/-- Claim C10: the built tree preserves order — the L1 nodes appear in exactly
the order of l1_test_cases, and the L2 (resp. L3) children of every node form a
sublist (relative order preserved) of the flat l2_test_cases
(resp. l3_test_cases) id sequence. -/
theorem claim_C10 (st : SessionState) (t : TreeData)
    (ht : (build_tree st).full_tree_data = some t) :
    t.l1_cases.map L1Node.id = st.l1_test_cases.map (fun c => jgetD c "id" (.jstr ""))
    ∧ ∀ n ∈ t.l1_cases,
        List.Sublist (n.l2_cases.map L2Node.id)
          (st.l2_test_cases.map (fun c => jgetD c "id" (.jstr "")))
        ∧ ∀ m ∈ n.l2_cases,
            List.Sublist (m.l3_cases.map L3Node.id)
              (st.l3_test_cases.map (fun c => jgetD c "id" (.jstr ""))) := by
  have ht2 : t = ⟨build_l1_nodes st.l1_test_cases st.l2_test_cases st.l3_test_cases,
      st.session_id, st.user_initial_prompt⟩ := by
    exact (Option.some.inj ht).symm
  subst ht2
  constructor
  · rw [build_l1_nodes_eq, List.map_map]
    rfl
  · intro n hn
    rw [build_l1_nodes_eq] at hn
    rcases List.mem_map.mp hn with ⟨c1, _, rfl⟩
    constructor
    · show List.Sublist ((build_l2_nodes st.l2_test_cases st.l3_test_cases (jget c1 "id")).map
          L2Node.id) _
      rw [build_l2_nodes_eq, List.map_map]
      have := List.Sublist.map (fun c => jgetD c "id" (JValue.jstr ""))
        (List.filter_sublist (p := fun c => opt_eq (jget c "parent_l1_id") (jget c1 "id"))
          st.l2_test_cases)
      exact this
    · intro m hm
      replace hm : m ∈ build_l2_nodes st.l2_test_cases st.l3_test_cases (jget c1 "id") := hm
      rw [build_l2_nodes_eq] at hm
      rcases List.mem_map.mp hm with ⟨c2, _, rfl⟩
      show List.Sublist ((build_l3_nodes st.l3_test_cases (jget c2 "id")).map L3Node.id) _
      rw [build_l3_nodes_eq, List.map_map]
      have := List.Sublist.map (fun c => jgetD c "id" (JValue.jstr ""))
        (List.filter_sublist (p := fun c => opt_eq (jget c "parent_l2_id") (jget c2 "id"))
          st.l3_test_cases)
      exact this

/-- Witness for C10 at a one-branch concrete state. -/
theorem claim_C10_witness :
    List.Sublist (nodeW.l2_cases.map L2Node.id)
      (stW.l2_test_cases.map (fun c => jgetD c "id" (.jstr ""))) :=
  ((claim_C10 stW treeW rfl).2 nodeW (List.mem_singleton_self nodeW)).1

/-- Claim C8 (amended): on a JSON parse failure no level ever raises; L1 and L2
fall back to exactly 2 placeholder cases and L2 carries the selected parent id
on every fallback case, but L3 falls back to exactly 1 placeholder case (not 2),
also carrying the correct parent id. -/
theorem claim_C8_amended (sel : JValue) (P : JValue) (hsel : jget sel "id" = some P) :
    (l1_cases_from_parse none).length = 2
    ∧ (l2_cases_from_parse none sel).length = 2
    ∧ (∀ tc ∈ l2_cases_from_parse none sel, jget tc "parent_l1_id" = some P)
    ∧ (l3_cases_from_parse none sel).length = 1
    ∧ (∀ tc ∈ l3_cases_from_parse none sel, jget tc "parent_l2_id" = some P) := by
  have hpid2 : jgetD sel "id" (JValue.jstr "L1_001") = P := by
    unfold jgetD
    rw [hsel]
    rfl
  have hpid3 : jgetD sel "id" (JValue.jstr "L2_001") = P := by
    unfold jgetD
    rw [hsel]
    rfl
  refine ⟨rfl, rfl, ?_, rfl, ?_⟩
  · intro tc htc
    replace htc : tc ∈ l2_cases_fallback (jgetD sel "id" (JValue.jstr "L1_001")) := htc
    rw [hpid2] at htc
    simp only [l2_cases_fallback, List.mem_cons, List.not_mem_nil, or_false] at htc
    rcases htc with rfl | rfl
    · rfl
    · rfl
  · intro tc htc
    replace htc : tc ∈ l3_cases_fallback (jgetD sel "id" (JValue.jstr "L2_001")) := htc
    rw [hpid3] at htc
    simp only [l3_cases_fallback, List.mem_cons, List.not_mem_nil, or_false] at htc
    rcases htc with rfl
    rfl

/-- Witness for C8 (amended) at a selected case with id L2_007. -/
theorem claim_C8_witness :
    (∀ tc ∈ l2_cases_from_parse none selC8, jget tc "parent_l1_id" = some (.jstr "L2_007"))
    ∧ (l3_cases_from_parse none selC8).length = 1 :=
  ⟨(claim_C8_amended selC8 (.jstr "L2_007") rfl).2.2.1,
   (claim_C8_amended selC8 (.jstr "L2_007") rfl).2.2.2.1⟩

/-- Counterexample for C8 as stated: the L3 parse-failure fallback has 1
placeholder case, not 2. -/
theorem claim_C8_counterexample :
    (l3_cases_from_parse none selC8).length ≠ 2 := by decide

/-- Claim C9 (amended): whenever the accumulated response text parses as JSON
(and, for L2 case generation, the per-case parent normalisation does not
raise), the parsed result at completion of the streaming call is identical to
what the corresponding non-streaming call produces, at every level, for
questions and cases alike; the L1 and L3 case generators even agree on every
parse result, failures included.  On unparseable text the remaining fallbacks
differ in size — L1 questions 3 vs 2, L2 questions 3 vs 1, L3 questions 3 vs 1,
L2 cases 2 vs 1 — so the claimed byte-for-byte equivalence fails there. -/
theorem claim_C9_amended (parse : String → Option JValue) (content : String) (v : JValue)
    (h : parse content = some v) :
    stream_ask_l1_questions_result parse content = ask_l1_questions_result parse content
    ∧ (∀ parsed : Option JValue,
        stream_l1_cases_from_parse parsed = l1_cases_from_parse parsed)
    ∧ (∀ (st : SessionState) (sel : JValue), st.selected_l1_case = some sel →
        stream_ask_l2_questions_result st parse content
          = (ask_l2_questions st parse content).l2_clarification_questions)
    ∧ (∀ (w sel : JValue) (cases : List JValue),
        (wrap_if_not_list w).mapM
            (try_set_parent "parent_l1_id" (jgetD sel "id" (.jstr "L1_001"))) = some cases →
        stream_l2_cases_from_parse (some w) sel = l2_cases_from_parse (some w) sel)
    ∧ (∀ (st : SessionState) (sel : JValue), st.selected_l2_case = some sel →
        stream_ask_l3_questions_result st parse content
          = (ask_l3_questions st parse content).l3_clarification_questions)
    ∧ (∀ (parsed : Option JValue) (sel : JValue),
        stream_l3_cases_from_parse parsed sel = l3_cases_from_parse parsed sel)
    ∧ l1_questions_fallback.length = 3
    ∧ stream_l1_questions_fallback.length = 2
    ∧ (∀ sel : JValue,
        (l2_questions_fallback sel).length = 3
        ∧ (stream_l2_questions_fallback sel).length = 1
        ∧ (l3_questions_fallback sel).length = 3
        ∧ (stream_l3_questions_fallback sel).length = 1)
    ∧ (∀ pid : JValue,
        (l2_cases_fallback pid).length = 2 ∧ (stream_l2_cases_fallback pid).length = 1) := by
  refine ⟨?_, fun parsed => rfl, ?_, ?_, ?_, fun parsed sel => rfl, rfl, rfl,
    fun sel => ⟨rfl, rfl, rfl, rfl⟩, fun pid => ⟨rfl, rfl⟩⟩
  · unfold stream_ask_l1_questions_result ask_l1_questions_result
    rw [h]
  · intro st sel hsel
    unfold stream_ask_l2_questions_result ask_l2_questions
    rw [hsel, h]
  · intro w sel cases hnorm
    simp only [stream_l2_cases_from_parse, l2_cases_from_parse, hnorm]
  · intro st sel hsel
    unfold stream_ask_l3_questions_result ask_l3_questions
    rw [hsel, h]

/-- Witness for C9 (amended): a response parsing to the empty array for the L1
question pair, and a well-formed single L2 case for the L2 case pair. -/
theorem claim_C9_witness :
    stream_ask_l1_questions_result parse_empty_arr "[]"
      = ask_l1_questions_result parse_empty_arr "[]"
    ∧ stream_l2_cases_from_parse (some caseL2a) selC8
      = l2_cases_from_parse (some caseL2a) selC8 :=
  ⟨(claim_C9_amended parse_empty_arr "[]" (jarrL []) rfl).1,
   (claim_C9_amended parse_empty_arr "[]" (jarrL []) rfl).2.2.2.1 caseL2a selC8
     [caseL2a] rfl⟩

/-- Counterexample for C9 as stated: on an unparseable accumulated text the
non-streaming L1 question generator falls back to 3 generic questions while the
streaming variant falls back to 2, so the parsed results differ. -/
theorem claim_C9_counterexample :
    stream_ask_l1_questions_result parse_fail "no json here"
      ≠ ask_l1_questions_result parse_fail "no json here" :=
  fun h => absurd (congrArg List.length h) (by decide)
